import Mathlib

/-!
Verification of the bate-papo UOL chat API (and its companion recipe
endpoints) against its natural-language specification.

The repository has two express/mongo source files:
* `src/src/app.js` — the chat API with HTML sanitization (`stripHtml` +
  `trim`) applied to participant names, message fields and headers;
* `src/unnamed/part_000` — an earlier variant without sanitization, whose
  file also carries the `receitas` (recipe) endpoints.

The mongo store is modelled as in-memory lists kept in insertion order:
`findOne` is `List.find?`, `insertOne` appends, `deleteMany pred` is a
`filter` with the negated predicate, and an `ObjectId` is modelled as the
message's position in the list.  Timestamps are `Int` milliseconds;
`dayjs(t).format("HH:mm:ss")` is modelled by `fmtTime` (UTC).  The
internals of the external `string-strip-html` and JS `parseInt` are out of
scope per the spec; they are modelled by the executable `sanitize`
(remove `<...>` tag spans, then trim ASCII whitespace) and `parseIntJS`
(optional sign, longest digit prefix, `none` for NaN; the hexadecimal
`0x` corner of JS `parseInt` is not exercised by any claim).
-/

/-- ASCII whitespace, as trimmed by `String.prototype.trim` on the inputs
we model. -/
def isSpaceChar (c : Char) : Bool :=
  c == ' ' || c == '\t' || c == '\n' || c == '\r'

/-- Tag stripper for `stripHtml(s).result`: characters between `<` and the
next `>` are removed, everything else is kept.  The flag says whether we
are currently inside a tag. -/
def stripTagsAux : Bool → List Char → List Char
  | _, [] => []
  | _, '<' :: rest => stripTagsAux true rest
  | true, '>' :: rest => stripTagsAux false rest
  | true, _ :: rest => stripTagsAux true rest
  | false, c :: rest => c :: stripTagsAux false rest

/-- Drop whitespace at both ends of a character list. -/
def trimChars (cs : List Char) : List Char :=
  ((cs.dropWhile isSpaceChar).reverse.dropWhile isSpaceChar).reverse

/-- `stripHtml(s).result.trim()` — the sanitization applied by
`src/src/app.js` to names, headers and message fields. -/
def sanitize (s : String) : String :=
  ⟨trimChars (stripTagsAux false s.data)⟩

/-- Decimal digit test. -/
def isDigitChar (c : Char) : Bool :=
  '0' ≤ c && c ≤ '9'

/-- Value of a digit list (most significant first). -/
def digitsToNat (cs : List Char) : Nat :=
  cs.foldl (fun acc c => acc * 10 + (c.toNat - '0'.toNat)) 0

/-- Longest decimal-digit prefix; `none` when there is no digit. -/
def digitsVal (cs : List Char) : Option Nat :=
  match cs.takeWhile isDigitChar with
  | [] => none
  | ds => some (digitsToNat ds)

/-- JS `parseInt(s)` on the decimal inputs we model: skip leading
whitespace, optional sign, longest digit prefix; NaN becomes `none`. -/
def parseIntJS (s : String) : Option Int :=
  match s.data.dropWhile isSpaceChar with
  | '-' :: rest => (digitsVal rest).map (fun n => -(n : Int))
  | '+' :: rest => (digitsVal rest).map (fun n => (n : Int))
  | cs => (digitsVal cs).map (fun n => (n : Int))

/-- Zero-pad a number below 100 to two digits. -/
def pad2 (n : Nat) : String :=
  if n < 10 then "0" ++ toString n else toString n

/-- `dayjs(t).format("HH:mm:ss")` for an epoch-millisecond timestamp,
modelled in UTC. -/
def fmtTime (t : Int) : String :=
  pad2 ((t.toNat / 1000 / 3600) % 24) ++ ":" ++
    pad2 ((t.toNat / 1000 / 60) % 60) ++ ":" ++ pad2 ((t.toNat / 1000) % 60)

/-- A document of the `participants` collection. -/
structure Participant where
  name : String
  lastStatus : Int
deriving DecidableEq

/-- A document of the `messages` collection as written by
`src/src/app.js` (all five fields always present). -/
structure Message where
  «from» : String
  «to» : String
  text : String
  type : String
  time : String
deriving DecidableEq

/-- The chat store of `src/src/app.js`: both collections in insertion
order. -/
structure DBState where
  participants : List Participant
  messages : List Message
deriving DecidableEq

/-- A message document as written by the `src/unnamed/part_000` variant:
that variant spreads `req.body` into the stored document, so the `type`
field may be absent (`none`). -/
structure MessageV0 where
  «from» : String
  «to» : String
  text : String
  type : Option String
  time : String
deriving DecidableEq

/-- The chat store of the `src/unnamed/part_000` variant. -/
structure DBStateV0 where
  participants : List Participant
  messages : List MessageV0
deriving DecidableEq

/-- A document of the `receitas` collection (`src/unnamed/part_000`). -/
structure Receita where
  titulo : String
  preparo : String
  ingredientes : String
deriving DecidableEq

/-- The JSON body of a message request: each field may be absent.  The
`from` field is not part of the documented payload but a client may send
it; the handlers differ in whether it can leak into the store. -/
structure MsgBody where
  «from» : Option String
  «to» : Option String
  text : Option String
  type : Option String

/-- `POST /participants` of `src/src/app.js` (lines 30-67): Joi requires
`name` to be a non-empty string (422 otherwise), the name is sanitized,
a duplicate sanitized name is a 409 conflict with no write, and on
success the participant plus an `entra na sala...` status message are
inserted. -/
def postParticipants (st : DBState) (body : Option String) (now : Int) :
    Nat × DBState :=
  match body with
  | none => (422, st)
  | some raw =>
    if raw = "" then (422, st)
    else
      match st.participants.find? (fun p => p.name == sanitize raw) with
      | some _ => (409, st)
      | none =>
        (201,
          ⟨st.participants ++ [⟨sanitize raw, now⟩],
            st.messages ++
              [⟨sanitize raw, "Todos", "entra na sala...", "status",
                fmtTime now⟩]⟩)

/-- `POST /participants` of `src/unnamed/part_000` (lines 30-69): same
validation and conflict check, but the raw `req.body.name` is stored
without sanitization. -/
def postParticipantsV0 (st : DBStateV0) (body : Option String) (now : Int) :
    Nat × DBStateV0 :=
  match body with
  | none => (422, st)
  | some name =>
    if name = "" then (422, st)
    else
      match st.participants.find? (fun p => p.name == name) with
      | some _ => (409, st)
      | none =>
        (201,
          ⟨st.participants ++ [⟨name, now⟩],
            st.messages ++
              [⟨name, "Todos", "entra na sala...", some "status",
                fmtTime now⟩]⟩)

/-- The Joi message schema of `src/src/app.js` (`POST /messages` and
`PUT /messages/:id`): `to` and `text` are required non-empty strings,
`type` must be exactly `"message"` or `"private_message"`; the merged
`from` key is always present (the header, or the body's own `from`), so
`Joi.required()` on it never fails. -/
def validMsgBody (b : MsgBody) : Bool :=
  (match b.«to» with | some t => t != "" | none => false) &&
    (match b.text with | some x => x != "" | none => false) &&
    (match b.type with
      | some ty => ty == "message" || ty == "private_message"
      | none => false)

/-- `POST /messages` of `src/src/app.js` (lines 78-120): 422 when the
`user` header is absent, when the sanitized header names no participant,
or when the payload fails the schema; on success the stored message's
`from` is the sanitized header and `to`, `text`, `type` are sanitized
body fields — the body's `from` is never stored. -/
def postMessage (st : DBState) (user : Option String) (body : MsgBody)
    (now : Int) : Nat × DBState :=
  match user with
  | none => (422, st)
  | some u =>
    match st.participants.find? (fun p => p.name == sanitize u) with
    | none => (422, st)
    | some _ =>
      if validMsgBody body then
        (201,
          ⟨st.participants,
            st.messages ++
              [⟨sanitize u, sanitize (body.«to».getD ""),
                sanitize (body.text.getD ""), sanitize (body.type.getD ""),
                fmtTime now⟩]⟩)
      else (422, st)

/-- `POST /messages` of `src/unnamed/part_000` (lines 80-118): the
participant lookup uses the raw header (409 when absent); the Joi schema
requires `to` and `text` but its `type` key uses `Joi.allow(...)` on an
unconstrained `any`, so any `type` value — or none — passes; the stored
document is `{ from: user, ...req.body, time }`, so a body `from`
overrides the header and the raw body fields are stored unsanitized. -/
def postMessageV0 (st : DBStateV0) (user : Option String) (body : MsgBody)
    (now : Int) : Nat × DBStateV0 :=
  match user with
  | none => (409, st)
  | some u =>
    match st.participants.find? (fun p => p.name == u) with
    | none => (409, st)
    | some _ =>
      match body.«to», body.text with
      | some t, some x =>
        if t = "" || x = "" then (422, st)
        else
          (201,
            ⟨st.participants,
              st.messages ++
                [⟨body.«from».getD u, t, x, body.type, fmtTime now⟩]⟩)
      | _, _ => (422, st)

/-- The three-clause mongo visibility filter of `GET /messages`
(`src/src/app.js` lines 135-146), compared against the RAW `user`
header. -/
def visible (user : String) (m : Message) : Bool :=
  m.type == "message" || m.«to» == "Todos" ||
    (m.type == "private_message" && (m.«to» == user || m.«from» == user))

/-- JS `xs.slice(-n)` for `n > 0`: the last `n` elements. -/
def takeLast (n : Nat) (xs : List α) : List α :=
  xs.drop (xs.length - n)

/-- `GET /messages` of `src/src/app.js` (lines 122-157): the existence
check uses the SANITIZED header (409 when it names no participant) while
the visibility filter compares `to`/`from` with the RAW header; without a
`limit` the whole visible list is sent reversed; a provided `limit` goes
through `parseInt`, fails with 422 when NaN or `≤ 0`, and otherwise the
last `limit` visible messages are sent reversed. -/
def getMessages (st : DBState) (user : String) (limit : Option String) :
    Nat × Option (List Message) :=
  match st.participants.find? (fun p => p.name == sanitize user) with
  | none => (409, none)
  | some _ =>
    match limit with
    | none => (200, some (st.messages.filter (visible user)).reverse)
    | some l =>
      match parseIntJS l with
      | none => (422, none)
      | some v =>
        if v ≤ 0 then (422, none)
        else
          (200,
            some (takeLast v.toNat (st.messages.filter (visible user))).reverse)

/-- Whether a `GET /messages` response body contains a message. -/
def inResult (r : Nat × Option (List Message)) (m : Message) : Bool :=
  match r.2 with
  | some msgs => decide (m ∈ msgs)
  | none => false

/-- The presence sweep `removeInactiveParticipants` of `src/src/app.js`
(lines 179-208): fetch the participants with `lastStatus < now - 10000`;
if none, stop; otherwise delete every participant matching the cutoff
predicate and insert one `sai da sala...` status message per fetched
participant, stamped with the sweep time. -/
def removeInactiveParticipants (st : DBState) (now : Int) : DBState :=
  let stale := st.participants.filter (fun p => decide (p.lastStatus < now - 10000))
  if stale.isEmpty then st
  else
    ⟨st.participants.filter (fun p => !decide (p.lastStatus < now - 10000)),
      st.messages ++
        stale.map (fun p =>
          ⟨p.name, "Todos", "sai da sala...", "status", fmtTime now⟩)⟩

/-- `PUT /messages/:id` of `src/src/app.js` (lines 231-279): 422 when the
sanitized header names no participant or the payload fails the schema;
404 when the id matches no message (the id is modelled as the index into
the messages list); 401 when the stored `from` differs from the RAW
header; on success `$set` writes the sanitized `from`, `to`, `text`,
`type` over the document, leaving `time` untouched. -/
def putMessage (st : DBState) (mid : Nat) (user : String) (body : MsgBody) :
    Nat × DBState :=
  match st.participants.find? (fun p => p.name == sanitize user) with
  | none => (422, st)
  | some _ =>
    if validMsgBody body then
      match st.messages[mid]? with
      | none => (404, st)
      | some m =>
        if m.«from» ≠ user then (401, st)
        else
          (200,
            ⟨st.participants,
              st.messages.set mid
                ⟨sanitize user, sanitize (body.«to».getD ""),
                  sanitize (body.text.getD ""), sanitize (body.type.getD ""),
                  m.time⟩⟩)
    else (422, st)

/-- `DELETE /receitas/muitas/:filtroIngredientes` of `src/unnamed/part_000`
(lines 179-190): `deleteMany({ ingredientes: filtro })` removes the
recipes whose `ingredientes` equals the filter exactly, and 204 is sent
unconditionally. -/
def deleteReceitasMuitas (rs : List Receita) (filtro : String) :
    Nat × List Receita :=
  (204, rs.filter (fun r => !(r.ingredientes == filtro)))

/-- The three-clause visibility filter as run by `src/unnamed/part_000`
(lines 132-143) over its documents, whose `type` field may be absent: a
mongo `{ type: "message" }` clause matches only documents carrying that
field with that value. -/
def visibleV0 (user : String) (m : MessageV0) : Bool :=
  m.type == some "message" || m.«to» == "Todos" ||
    (m.type == some "private_message" && (m.«to» == user || m.«from» == user))

/-- `GET /messages` of `src/unnamed/part_000` (lines 120-161): the raw
header is looked up directly (409 when it names no participant); the
limit is parsed with `parseInt` BEFORE the `undefined` check, so that
check is dead — an absent or fully non-numeric limit parses to NaN,
which passes `limit <= 0 || typeof limit !== "number"` (NaN <= 0 is
false and NaN is of type number) and reaches `slice(-NaN)`, which is
`slice(0)`: all visible messages are sent reversed with 200.  Only a
parsed value `<= 0` answers 422.  (The dead `receita` block after the
response, which reads an undefined `id`, is not modelled.) -/
def getMessagesV0 (st : DBStateV0) (user : Option String)
    (limit : Option String) : Nat × Option (List MessageV0) :=
  match user with
  | none => (409, none)
  | some u =>
    match st.participants.find? (fun p => p.name == u) with
    | none => (409, none)
    | some _ =>
      match limit with
      | none => (200, some (st.messages.filter (visibleV0 u)).reverse)
      | some l =>
        match parseIntJS l with
        | none => (200, some (st.messages.filter (visibleV0 u)).reverse)
        | some v =>
          if v ≤ 0 then (422, none)
          else
            (200,
              some (takeLast v.toNat (st.messages.filter (visibleV0 u))).reverse)

/-! ## Concrete stores used by counterexamples and witnesses -/

/-- A store with three participants, one of them literally named
`"Todos"`, and one private message addressed to `"Todos"`. -/
def stC1 : DBState :=
  ⟨[⟨"Ana", 0⟩, ⟨"Bob", 0⟩, ⟨"Todos", 0⟩],
    [⟨"Ana", "Todos", "oi", "private_message", "00:00:00"⟩]⟩

/-- The private message of `stC1`. -/
def msgC1 : Message := ⟨"Ana", "Todos", "oi", "private_message", "00:00:00"⟩

/-! ## Claim C1 -/

/-- Claim C1 (amended): for every requester that is an existing
participant (by sanitized header), `GET /messages` succeeds and returns
exactly the stored messages satisfying the three-clause visibility
predicate over the raw header; every `message`-type message is returned
to every participant, and a `private_message` whose `to` is not
`"Todos"` is never returned to a requester that is neither its `to` nor
its `from`. -/
theorem getMessages_visibility (st : DBState) (user : String)
    (hp : (st.participants.find? (fun p => p.name == sanitize user)).isSome) :
    (getMessages st user none).1 = 200 ∧
    (∀ m : Message, inResult (getMessages st user none) m = true ↔
      (m ∈ st.messages ∧ (m.type = "message" ∨ m.«to» = "Todos" ∨
        (m.type = "private_message" ∧ (m.«to» = user ∨ m.«from» = user))))) ∧
    (∀ m ∈ st.messages, m.type = "message" →
      inResult (getMessages st user none) m = true) ∧
    (∀ m ∈ st.messages, m.type = "private_message" → m.«to» ≠ "Todos" →
      m.«to» ≠ user → m.«from» ≠ user →
      inResult (getMessages st user none) m = false) := by
  obtain ⟨p, hfind⟩ := Option.isSome_iff_exists.mp hp
  have hres : getMessages st user none =
      (200, some (st.messages.filter (visible user)).reverse) := by
    unfold getMessages
    rw [hfind]
  have hmem : ∀ m : Message, inResult (getMessages st user none) m = true ↔
      (m ∈ st.messages ∧ (m.type = "message" ∨ m.«to» = "Todos" ∨
        (m.type = "private_message" ∧ (m.«to» = user ∨ m.«from» = user)))) := by
    intro m
    rw [hres]
    simp [inResult, List.mem_filter, visible, and_assoc, or_assoc]
  refine ⟨by rw [hres], hmem, ?_, ?_⟩
  · intro m hm ht
    exact (hmem m).mpr ⟨hm, Or.inl ht⟩
  · intro m hm ht hTodos hto hfrom
    rcases Bool.eq_false_or_eq_true (inResult (getMessages st user none) m)
      with htr | hf
    case inr => exact hf
    case inl =>
      rcases ((hmem m).mp htr).2 with h | h | ⟨_, h | h⟩
      · rw [ht] at h; exact absurd h (by decide)
      · exact absurd h hTodos
      · exact absurd h hto
      · exact absurd h hfrom

/-- Claim C1, counterexample to the claim as stated: `"Todos"` is itself
a valid participant name; a `private_message` between the participants
`"Ana"` and `"Todos"` is returned to the third participant `"Bob"`
through the broadcast clause `to == "Todos"`. -/
theorem private_message_to_Todos_leaks :
    (⟨"Ana", 0⟩ : Participant) ∈ stC1.participants ∧
    (⟨"Todos", 0⟩ : Participant) ∈ stC1.participants ∧
    (⟨"Bob", 0⟩ : Participant) ∈ stC1.participants ∧
    msgC1 ∈ stC1.messages ∧ msgC1.type = "private_message" ∧
    msgC1.«from» = "Ana" ∧ msgC1.«to» = "Todos" ∧
    ("Bob" : String) ≠ "Ana" ∧ ("Bob" : String) ≠ "Todos" ∧
    inResult (getMessages stC1 "Bob" none) msgC1 = true := by decide

/-- Claim C1, witness: the amended theorem applied to the concrete store
`stC1` and requester `"Bob"`. -/
theorem getMessages_visibility_witness :
    (getMessages stC1 "Bob" none).1 = 200 ∧
    inResult (getMessages stC1 "Bob" none) msgC1 = true := by
  have h := getMessages_visibility stC1 "Bob" (by decide)
  exact ⟨h.1, (h.2.1 msgC1).mpr ⟨by decide, by decide⟩⟩

/-! ## Claim C4 -/

/-- `slice(-n)` keeps `min n length` elements. -/
theorem takeLast_length (n : Nat) (xs : List Message) :
    (takeLast n xs).length = min n xs.length := by
  simp [takeLast]
  omega

/-- Claim C4 (amended): the two cited handlers treat a provided `limit`
differently.  In `src/src/app.js`, for an existing requester, `limit`
is read with JS `parseInt`; when the parsed value `v` is positive the
response is 200 with the last `v` visible messages reversed (newest
first), which are `min v total_visible` many; when `parseInt` yields
NaN or a value `≤ 0` the request fails with 422 — but a limit string
that merely STARTS with a positive integer (such as `"2x"`) parses to
that integer and succeeds.  In `src/unnamed/part_000` the parse runs
before the dead `undefined` check and NaN passes the guard, so a fully
non-numeric limit answers 200 with ALL visible messages reversed
instead of 422; a positive parse returns the last `v` reversed and only
a parse `≤ 0` answers 422. -/
theorem getMessages_limit_spec (st : DBState) (stv : DBStateV0)
    (user l : String)
    (hp : (st.participants.find? (fun p => p.name == sanitize user)).isSome)
    (hpv : (stv.participants.find? (fun p => p.name == user)).isSome) :
    ((∀ v : Int, parseIntJS l = some v → 0 < v →
      getMessages st user (some l) =
        (200,
          some (takeLast v.toNat (st.messages.filter (visible user))).reverse) ∧
      ((takeLast v.toNat (st.messages.filter (visible user))).reverse).length =
        min v.toNat (st.messages.filter (visible user)).length) ∧
    (parseIntJS l = none → getMessages st user (some l) = (422, none)) ∧
    (∀ v : Int, parseIntJS l = some v → v ≤ 0 →
      getMessages st user (some l) = (422, none))) ∧
    ((∀ v : Int, parseIntJS l = some v → 0 < v →
      getMessagesV0 stv (some user) (some l) =
        (200,
          some (takeLast v.toNat
            (stv.messages.filter (visibleV0 user))).reverse)) ∧
    (parseIntJS l = none →
      getMessagesV0 stv (some user) (some l) =
        (200, some (stv.messages.filter (visibleV0 user)).reverse)) ∧
    (∀ v : Int, parseIntJS l = some v → v ≤ 0 →
      getMessagesV0 stv (some user) (some l) = (422, none))) := by
  obtain ⟨p, hfind⟩ := Option.isSome_iff_exists.mp hp
  obtain ⟨q, hfindv⟩ := Option.isSome_iff_exists.mp hpv
  refine ⟨⟨?_, ?_, ?_⟩, ?_, ?_, ?_⟩
  · intro v hv hvpos
    constructor
    · simp [getMessages, hfind, hv, not_le.mpr hvpos]
    · rw [List.length_reverse]
      exact takeLast_length _ _
  · intro hv
    simp [getMessages, hfind, hv]
  · intro v hv hvneg
    simp [getMessages, hfind, hv, hvneg]
  · intro v hv hvpos
    simp [getMessagesV0, hfindv, hv, not_le.mpr hvpos]
  · intro hv
    simp [getMessagesV0, hfindv, hv]
  · intro v hv hvneg
    simp [getMessagesV0, hfindv, hv, hvneg]

/-- A store with one participant and three public messages. -/
def stC4 : DBState :=
  ⟨[⟨"Ana", 0⟩],
    [⟨"Ana", "Todos", "um", "message", "00:00:00"⟩,
      ⟨"Ana", "Todos", "dois", "message", "00:00:00"⟩,
      ⟨"Ana", "Todos", "tres", "message", "00:00:00"⟩]⟩

/-- Claim C4, counterexample to the claim as stated: the provided limit
`"2x"` is not a positive integer (it is non-numeric as a whole), yet the
request succeeds with 200 and the two newest messages, because
`parseInt("2x")` is `2`. -/
theorem limit_nonnumeric_succeeds :
    getMessages stC4 "Ana" (some "2x") =
      (200,
        some [⟨"Ana", "Todos", "tres", "message", "00:00:00"⟩,
          ⟨"Ana", "Todos", "dois", "message", "00:00:00"⟩]) ∧
    (getMessages stC4 "Ana" (some "2x")).1 ≠ 422 := by decide

/-- The same store as `stC4` in the part_000 document shape, for the
variant half of the C4 witness. -/
def stC4v : DBStateV0 :=
  ⟨[⟨"Ana", 0⟩],
    [⟨"Ana", "Todos", "um", some "message", "00:00:00"⟩,
      ⟨"Ana", "Todos", "dois", some "message", "00:00:00"⟩]⟩

/-- Claim C4, witness: the amended theorem applied to the concrete
stores `stC4` and `stC4v` with limits `"2"`, `"abc"` and `"-1"`. -/
theorem getMessages_limit_spec_witness :
    (getMessages stC4 "Ana" (some "2") =
      (200,
        some (takeLast (2 : Int).toNat
          (stC4.messages.filter (visible "Ana"))).reverse) ∧
      ((takeLast (2 : Int).toNat
          (stC4.messages.filter (visible "Ana"))).reverse).length =
        min (2 : Int).toNat (stC4.messages.filter (visible "Ana")).length) ∧
    getMessages stC4 "Ana" (some "abc") = (422, none) ∧
    getMessages stC4 "Ana" (some "-1") = (422, none) ∧
    getMessagesV0 stC4v (some "Ana") (some "2") =
      (200,
        some (takeLast (2 : Int).toNat
          (stC4v.messages.filter (visibleV0 "Ana"))).reverse) ∧
    getMessagesV0 stC4v (some "Ana") (some "abc") =
      (200, some (stC4v.messages.filter (visibleV0 "Ana")).reverse) ∧
    getMessagesV0 stC4v (some "Ana") (some "-1") = (422, none) := by
  refine ⟨?_, ?_, ?_, ?_, ?_, ?_⟩
  · exact (getMessages_limit_spec stC4 stC4v "Ana" "2" (by decide)
      (by decide)).1.1 2 (by decide) (by decide)
  · exact (getMessages_limit_spec stC4 stC4v "Ana" "abc" (by decide)
      (by decide)).1.2.1 (by decide)
  · exact (getMessages_limit_spec stC4 stC4v "Ana" "-1" (by decide)
      (by decide)).1.2.2 (-1) (by decide) (by decide)
  · exact (getMessages_limit_spec stC4 stC4v "Ana" "2" (by decide)
      (by decide)).2.1 2 (by decide) (by decide)
  · exact (getMessages_limit_spec stC4 stC4v "Ana" "abc" (by decide)
      (by decide)).2.2.1 (by decide)
  · exact (getMessages_limit_spec stC4 stC4v "Ana" "-1" (by decide)
      (by decide)).2.2.2 (-1) (by decide) (by decide)

/-! ## Claim C3 -/

/-- Claim C3: on every run of the presence sweep with
`cutoff = now - 10000`: if no participant has `lastStatus < cutoff` the
sweep changes nothing; otherwise every participant with
`lastStatus < cutoff` is deleted, every participant with
`lastStatus ≥ cutoff` remains, and exactly one departure status message
`{from: name, to: "Todos", text: "sai da sala...", type: "status",
time: fmtTime now}` is appended per participant of the fetched
snapshot. -/
theorem removeInactive_spec (st : DBState) (now : Int) :
    (st.participants.filter (fun p => decide (p.lastStatus < now - 10000)) = [] →
      removeInactiveParticipants st now = st) ∧
    (st.participants.filter (fun p => decide (p.lastStatus < now - 10000)) ≠ [] →
      (∀ p ∈ st.participants, p.lastStatus < now - 10000 →
        p ∉ (removeInactiveParticipants st now).participants) ∧
      (∀ p ∈ st.participants, now - 10000 ≤ p.lastStatus →
        p ∈ (removeInactiveParticipants st now).participants) ∧
      (removeInactiveParticipants st now).messages =
        st.messages ++
          (st.participants.filter
            (fun p => decide (p.lastStatus < now - 10000))).map
            (fun p =>
              ⟨p.name, "Todos", "sai da sala...", "status", fmtTime now⟩)) := by
  constructor
  · intro h
    simp [removeInactiveParticipants, h]
  · intro h
    have hne : (st.participants.filter
        (fun p => decide (p.lastStatus < now - 10000))).isEmpty = false := by
      simpa [List.isEmpty_iff] using h
    refine ⟨?_, ?_, ?_⟩
    · intro p hp hstale hmem
      rw [removeInactiveParticipants] at hmem
      simp only [hne, Bool.false_eq_true, if_false] at hmem
      rcases List.mem_filter.mp hmem with ⟨_, hkeep⟩
      simp [hstale] at hkeep
    · intro p hp hfresh
      rw [removeInactiveParticipants]
      simp only [hne, Bool.false_eq_true, if_false]
      exact List.mem_filter.mpr ⟨hp, by simp [not_lt.mpr hfresh]⟩
    · rw [removeInactiveParticipants]
      simp only [hne, Bool.false_eq_true, if_false]

/-- Stale store for the C3 witness: `"Ana"` is 20 seconds old at sweep
time 20000, `"Bob"` is fresh. -/
def stC3 : DBState := ⟨[⟨"Ana", 0⟩, ⟨"Bob", 100000⟩], []⟩

/-- All-fresh store for the C3 witness. -/
def stC3fresh : DBState := ⟨[⟨"Bob", 100000⟩], []⟩

/-- Claim C3, witness: the sweep theorem applied at time 20000 to a
store with one stale and one fresh participant, and to an all-fresh
store. -/
theorem removeInactive_spec_witness :
    removeInactiveParticipants stC3fresh 20000 = stC3fresh ∧
    (⟨"Ana", 0⟩ : Participant) ∉
      (removeInactiveParticipants stC3 20000).participants ∧
    (⟨"Bob", 100000⟩ : Participant) ∈
      (removeInactiveParticipants stC3 20000).participants ∧
    (removeInactiveParticipants stC3 20000).messages =
      stC3.messages ++
        (stC3.participants.filter
          (fun p => decide (p.lastStatus < 20000 - 10000))).map
          (fun p =>
            ⟨p.name, "Todos", "sai da sala...", "status", fmtTime 20000⟩) := by
  have h1 := (removeInactive_spec stC3fresh 20000).1 (by decide)
  have h2 := (removeInactive_spec stC3 20000).2 (by decide)
  exact ⟨h1, h2.1 _ (by decide) (by decide), h2.2.1 _ (by decide) (by decide),
    h2.2.2⟩

/-! ## Claim C5 -/

/-- Claim C5: if a participant with the (sanitized) requested name
already exists, `POST /participants` answers 409 and leaves both
collections untouched; joining twice with the same valid name yields 201
and then 409, the second call changing nothing. -/
theorem postParticipants_conflict (st : DBState) (raw : String)
    (now now2 : Int) (hraw : raw ≠ "") :
    ((st.participants.find? (fun p => p.name == sanitize raw)).isSome →
      postParticipants st (some raw) now = (409, st)) ∧
    (st.participants.find? (fun p => p.name == sanitize raw) = none →
      (postParticipants st (some raw) now).1 = 201 ∧
      postParticipants (postParticipants st (some raw) now).2 (some raw) now2 =
        (409, (postParticipants st (some raw) now).2)) := by
  constructor
  · intro hp
    obtain ⟨p, hfind⟩ := Option.isSome_iff_exists.mp hp
    simp [postParticipants, hraw, hfind]
  · intro hnone
    have h1 : postParticipants st (some raw) now =
        (201,
          ⟨st.participants ++ [⟨sanitize raw, now⟩],
            st.messages ++
              [⟨sanitize raw, "Todos", "entra na sala...", "status",
                fmtTime now⟩]⟩) := by
      simp [postParticipants, hraw, hnone]
    rw [h1]
    exact ⟨rfl, by simp [postParticipants, hraw, hnone]⟩

/-- Claim C5, witness: the conflict theorem applied to a store already
holding `"Ana"`, and the double-join run for the fresh name `"Bia"`. -/
theorem postParticipants_conflict_witness :
    postParticipants ⟨[⟨"Ana", 0⟩], []⟩ (some "Ana") 5 =
      (409, ⟨[⟨"Ana", 0⟩], []⟩) ∧
    (postParticipants ⟨[], []⟩ (some "Bia") 1).1 = 201 ∧
    postParticipants (postParticipants ⟨[], []⟩ (some "Bia") 1).2
        (some "Bia") 2 =
      (409, (postParticipants ⟨[], []⟩ (some "Bia") 1).2) := by
  have h1 := (postParticipants_conflict ⟨[⟨"Ana", 0⟩], []⟩ "Ana" 5 6
    (by decide)).1 (by decide)
  have h2 := (postParticipants_conflict ⟨[], []⟩ "Bia" 1 2 (by decide)).2
    (by decide)
  exact ⟨h1, h2.1, h2.2⟩

/-! ## Claim C6 -/

/-- Claim C6 (amended): in the `src/src/app.js` variant every successful
join stores the participant under the request's name with markup
stripped and whitespace trimmed, and appends a status message whose
`from` is that sanitized name, with `to = "Todos"` and
`type = "status"`; the `src/unnamed/part_000` variant stores the raw
name unsanitized. -/
theorem postParticipants_sanitizes (st : DBState) (raw : String) (now : Int)
    (hraw : raw ≠ "")
    (hnew : st.participants.find? (fun p => p.name == sanitize raw) = none) :
    postParticipants st (some raw) now =
      (201,
        ⟨st.participants ++ [⟨sanitize raw, now⟩],
          st.messages ++
            [⟨sanitize raw, "Todos", "entra na sala...", "status",
              fmtTime now⟩]⟩) := by
  simp [postParticipants, hraw, hnew]

/-- Claim C6, counterexample to the claim as stated: the
`src/unnamed/part_000` join handler accepts `"<b>Ana</b>"` and stores
the participant and the status message under the RAW name
`"<b>Ana</b>"`, not under `"Ana"`. -/
theorem postParticipantsV0_no_sanitize :
    postParticipantsV0 ⟨[], []⟩ (some "<b>Ana</b>") 0 =
      (201,
        ⟨[⟨"<b>Ana</b>", 0⟩],
          [⟨"<b>Ana</b>", "Todos", "entra na sala...", some "status",
            "00:00:00"⟩]⟩) ∧
    ("<b>Ana</b>" : String) ≠ "Ana" := by decide

/-- Claim C6, witness: the sanitizing join applied to the request name
`"<b>Ana</b>"`, which is stored as `"Ana"`. -/
theorem postParticipants_sanitizes_witness :
    postParticipants ⟨[], []⟩ (some "<b>Ana</b>") 0 =
      (201,
        ⟨[⟨sanitize "<b>Ana</b>", 0⟩],
          [⟨sanitize "<b>Ana</b>", "Todos", "entra na sala...", "status",
            fmtTime 0⟩]⟩) ∧
    sanitize "<b>Ana</b>" = "Ana" :=
  ⟨postParticipants_sanitizes ⟨[], []⟩ "<b>Ana</b>" 0 (by decide) rfl,
    by decide⟩

/-! ## Claim C8 -/

/-- Claim C8 (amended): for `PUT /messages/:id` by a requester whose
sanitized header names a participant and whose payload passes the
schema: when the stored message's `from` differs from the RAW header the
response is 401 and the store is unchanged; when it equals the raw
header the response is 200 and the message's `to`, `text`, `type` are
replaced by their sanitized request values with `time` untouched, while
`from` is overwritten with the sanitized header — so `from` is unchanged
exactly when the header equals its sanitized form. -/
theorem putMessage_spec (st : DBState) (mid : Nat) (user : String)
    (f? : Option String) (t x ty : String)
    (hp : (st.participants.find? (fun p => p.name == sanitize user)).isSome)
    (ht : t ≠ "") (hx : x ≠ "")
    (hty : ty = "message" ∨ ty = "private_message") :
    (∀ m, st.messages[mid]? = some m → m.«from» ≠ user →
      putMessage st mid user ⟨f?, some t, some x, some ty⟩ = (401, st)) ∧
    (∀ m, st.messages[mid]? = some m → m.«from» = user →
      putMessage st mid user ⟨f?, some t, some x, some ty⟩ =
        (200,
          ⟨st.participants,
            st.messages.set mid
              ⟨sanitize user, sanitize t, sanitize x, sanitize ty,
                m.time⟩⟩)) := by
  obtain ⟨p, hfind⟩ := Option.isSome_iff_exists.mp hp
  have hvalid : validMsgBody ⟨f?, some t, some x, some ty⟩ = true := by
    rcases hty with h | h <;> simp [validMsgBody, ht, hx, h]
  constructor
  · intro m hm hown
    simp [putMessage, hfind, hvalid, hm, hown]
  · intro m hm hown
    simp [putMessage, hfind, hvalid, hm, hown]

/-- Store for the C8 counterexample: the participant is stored
sanitized as `"Ana"`, but the message's `from` — and the request
header — carry the unsanitized `" Ana "`. -/
def stC8 : DBState :=
  ⟨[⟨"Ana", 0⟩, ⟨"Bob", 0⟩],
    [⟨" Ana ", "Bob", "oi", "message", "01:02:03"⟩]⟩

/-- Claim C8, counterexample to the claim as stated: the owning
requester (raw header `" Ana "` equal to the stored `from`) succeeds,
but the update's `$set` also rewrites `from` to the sanitized header
`"Ana"` — the `from` field does NOT stay unchanged. -/
theorem putMessage_overwrites_from :
    putMessage stC8 0 " Ana " ⟨none, some "Bob", some "tchau", some "message"⟩ =
      (200,
        ⟨[⟨"Ana", 0⟩, ⟨"Bob", 0⟩],
          [⟨"Ana", "Bob", "tchau", "message", "01:02:03"⟩]⟩) ∧
    (" Ana " : String) ≠ "Ana" := by decide

/-- Claim C8, witness: both branches of the amended theorem at concrete
stores — a non-owner gets 401 with nothing changed, the owner's update
replaces the sanitized fields and `from`, keeping `time`. -/
theorem putMessage_spec_witness :
    putMessage stC8 0 "Bob" ⟨none, some "Bob", some "tchau", some "message"⟩ =
      (401, stC8) ∧
    putMessage stC8 0 " Ana "
        ⟨none, some "Bob", some "tchau", some "message"⟩ =
      (200,
        ⟨stC8.participants,
          stC8.messages.set 0
            ⟨sanitize " Ana ", sanitize "Bob", sanitize "tchau",
              sanitize "message", "01:02:03"⟩⟩) := by
  constructor
  · exact (putMessage_spec stC8 0 "Bob" none "Bob" "tchau" "message"
      (by decide) (by decide) (by decide) (Or.inl rfl)).1 _ rfl (by decide)
  · exact (putMessage_spec stC8 0 " Ana " none "Bob" "tchau" "message"
      (by decide) (by decide) (by decide) (Or.inl rfl)).2 _ rfl (by decide)

/-! ## Claim C9 -/

/-- Claim C9: for every filter string, the bulk recipe deletion removes
exactly the recipes whose `ingredientes` field equals the filter
string-exactly, leaves every other recipe in place (in order), and
answers 204 even when nothing matched. -/
theorem deleteReceitasMuitas_spec (rs : List Receita) (filtro : String) :
    (deleteReceitasMuitas rs filtro).1 = 204 ∧
    (∀ r, r ∈ (deleteReceitasMuitas rs filtro).2 ↔
      (r ∈ rs ∧ r.ingredientes ≠ filtro)) ∧
    ((∀ r ∈ rs, r.ingredientes ≠ filtro) →
      (deleteReceitasMuitas rs filtro).2 = rs) := by
  refine ⟨rfl, ?_, ?_⟩
  · intro r
    simp [deleteReceitasMuitas, List.mem_filter]
  · intro h
    simp only [deleteReceitasMuitas]
    exact List.filter_eq_self.mpr (fun r hr => by simp [h r hr])

/-- Recipes for the C9 witness: one exact match, one proper-superstring
match. -/
def rsC9 : List Receita :=
  [⟨"bolo", "asse", "ovo"⟩, ⟨"pudim", "cozinhe", "ovo, leite"⟩]

/-- Claim C9, witness: deleting with filter `"ovo"` answers 204, removes
the exact match and keeps the recipe whose `ingredientes` merely
contains `"ovo"` as a substring. -/
theorem deleteReceitasMuitas_spec_witness :
    (deleteReceitasMuitas rsC9 "ovo").1 = 204 ∧
    (⟨"pudim", "cozinhe", "ovo, leite"⟩ : Receita) ∈
      (deleteReceitasMuitas rsC9 "ovo").2 ∧
    ¬ (⟨"bolo", "asse", "ovo"⟩ : Receita) ∈ (deleteReceitasMuitas rsC9 "ovo").2 := by
  have h := deleteReceitasMuitas_spec rsC9 "ovo"
  refine ⟨h.1, (h.2.1 _).mpr ⟨by decide, by decide⟩, ?_⟩
  intro hmem
  exact absurd ((h.2.1 _).mp hmem).2 (by decide)

/-! ## Claim C10 -/

/-- Claim C10 (amended): in `GET /messages` the participant-existence
check uses the sanitized trimmed header while the visibility clauses
compare the RAW header; hence a requester whose header differs from its
sanitized form still succeeds (the sanitized name is a participant),
but a private message exchanged under the sanitized name — addressed to
or from it, provided its `to` is not `"Todos"` and neither its `to` nor
its `from` carries the raw header itself — is excluded from the
result.  (Without those provisos the exclusion fails: see the
counterexample, where a `private_message` from the sanitized name to
`"Todos"` is still broadcast.) -/
theorem getMessages_raw_header_mismatch (st : DBState) (user : String)
    (_hne : user ≠ sanitize user)
    (hp : (st.participants.find? (fun p => p.name == sanitize user)).isSome) :
    (getMessages st user none).1 = 200 ∧
    (∀ m ∈ st.messages, m.type = "private_message" →
      (m.«to» = sanitize user ∨ m.«from» = sanitize user) →
      m.«to» ≠ "Todos" → m.«to» ≠ user → m.«from» ≠ user →
      inResult (getMessages st user none) m = false) := by
  obtain ⟨p, hfind⟩ := Option.isSome_iff_exists.mp hp
  have hres : getMessages st user none =
      (200, some (st.messages.filter (visible user)).reverse) := by
    unfold getMessages
    rw [hfind]
  refine ⟨by rw [hres], ?_⟩
  intro m hm htype hsan hTodos hto hfrom
  rw [hres]
  simp only [inResult, decide_eq_false_iff_not, List.mem_reverse,
    List.mem_filter, not_and]
  intro _
  simp [visible, htype, hTodos, hto, hfrom]

/-- Store for the C10 counterexample: the private message is FROM the
sanitized participant name `"Ana"` but addressed to `"Todos"`; such a
message is inserted by the app.js `POST /messages` itself (`to` is any
non-empty string, `from` is always the sanitized header). -/
def stC10leak : DBState :=
  ⟨[⟨"Ana", 0⟩, ⟨"Bob", 0⟩],
    [⟨"Ana", "Todos", "aviso", "private_message", "00:00:00"⟩]⟩

/-- The private message of `stC10leak`. -/
def msgC10leak : Message :=
  ⟨"Ana", "Todos", "aviso", "private_message", "00:00:00"⟩

/-- Claim C10, counterexample to the claim as stated: requester header
`" Ana "` differs from its sanitized form `"Ana"`, which is an existing
participant, and the stored `private_message` has `from` equal to that
sanitized name — yet it IS returned (via the broadcast clause
`to == "Todos"`), so not every private message whose `to` or `from`
equals the sanitized name is excluded. -/
theorem raw_header_private_to_Todos_returned :
    (" Ana " : String) ≠ sanitize " Ana " ∧
    (stC10leak.participants.find?
      (fun p => p.name == sanitize " Ana ")).isSome = true ∧
    msgC10leak.type = "private_message" ∧
    msgC10leak.«from» = sanitize " Ana " ∧
    (getMessages stC10leak " Ana " none).1 = 200 ∧
    inResult (getMessages stC10leak " Ana " none) msgC10leak = true := by
  decide

/-- Store for the C10 witness: the private message is addressed to the
sanitized participant name `"Ana"`. -/
def stC10 : DBState :=
  ⟨[⟨"Ana", 0⟩, ⟨"Bob", 0⟩],
    [⟨"Bob", "Ana", "segredo", "private_message", "00:00:00"⟩]⟩

/-- Claim C10, witness: requester header `" Ana "` (sanitized `"Ana"`)
passes the existence check, yet the private message addressed to
`"Ana"` is not in the response. -/
theorem getMessages_raw_header_mismatch_witness :
    (getMessages stC10 " Ana " none).1 = 200 ∧
    inResult (getMessages stC10 " Ana " none)
      ⟨"Bob", "Ana", "segredo", "private_message", "00:00:00"⟩ = false := by
  have h := getMessages_raw_header_mismatch stC10 " Ana " (by decide)
    (by decide)
  exact ⟨h.1, h.2 _ (by decide) (by decide) (by decide) (by decide)
    (by decide) (by decide)⟩

/-! ## Claim C2 -/

/-- Participant store shared by the part_000 message-handler runs. -/
def stV0 : DBStateV0 := ⟨[⟨"Ana", 0⟩], []⟩

/-- Claim C2: in `src/unnamed/part_000` the stored document is
`{ from: user, ...req.body, time }`, so a `from` in the request body
OVERRIDES the authenticated header: two requests by participant `"Ana"`
identical except for the body's `from` store different `from` values
(`"Mallory"` vs `"Ana"`), contradicting the claim.  (The
`src/src/app.js` variant is immune — see
`postMessage_ignores_body_from`.) -/
theorem postMessageV0_body_from_overrides :
    (postMessageV0 stV0 (some "Ana")
        ⟨some "Mallory", some "Bob", some "oi", some "message"⟩ 0).2.messages =
      [⟨"Mallory", "Bob", "oi", some "message", "00:00:00"⟩] ∧
    (postMessageV0 stV0 (some "Ana")
        ⟨none, some "Bob", some "oi", some "message"⟩ 0).2.messages =
      [⟨"Ana", "Bob", "oi", some "message", "00:00:00"⟩] ∧
    (postMessageV0 stV0 (some "Ana")
        ⟨some "Mallory", some "Bob", some "oi", some "message"⟩ 0).1 = 201 := by
  decide

/-- The `src/src/app.js` `POST /messages` handler never stores a body
`from`: two requests differing only in the body's `from` field produce
identical results. -/
theorem postMessage_ignores_body_from (st : DBState) (user : Option String)
    (f1 f2 t x ty : Option String) (now : Int) :
    postMessage st user ⟨f1, t, x, ty⟩ now =
      postMessage st user ⟨f2, t, x, ty⟩ now := rfl

/-! ## Claim C7 -/

/-- Claim C7: the part_000 message schema constrains `type` with
`Joi.allow("message", "private_message")` on an unconstrained `any`
key, which forbids nothing: a payload with `type: "banana"` passes
validation, is inserted, and the request answers 201 — instead of the
claimed 422 with no insertion.  (The `src/src/app.js` variant uses
`Joi.valid(...).required()` and does reject it — see
`postMessage_rejects_bad_type`.) -/
theorem postMessageV0_type_unchecked :
    postMessageV0 stV0 (some "Ana")
        ⟨none, some "Bob", some "oi", some "banana"⟩ 0 =
      (201, ⟨[⟨"Ana", 0⟩],
        [⟨"Ana", "Bob", "oi", some "banana", "00:00:00"⟩]⟩) := by decide

/-- The `src/src/app.js` schema rejects any present `type` other than
the two legal values, leaving the store unchanged with 422. -/
theorem postMessage_rejects_bad_type (st : DBState) (u : String)
    (f? : Option String) (t x ty : String) (now : Int)
    (hty1 : ty ≠ "message") (hty2 : ty ≠ "private_message") :
    postMessage st (some u) ⟨f?, some t, some x, some ty⟩ now = (422, st) := by
  have hvalid : validMsgBody ⟨f?, some t, some x, some ty⟩ = false := by
    simp [validMsgBody, hty1, hty2]
  cases hfind : st.participants.find? (fun p => p.name == sanitize u) with
  | none => simp [postMessage, hfind]
  | some p => simp [postMessage, hfind, hvalid]

/-- Witness for `postMessage_rejects_bad_type` at the concrete type
`"banana"`. -/
theorem postMessage_rejects_bad_type_witness :
    postMessage ⟨[⟨"Ana", 0⟩], []⟩ (some "Ana")
        ⟨none, some "Bob", some "oi", some "banana"⟩ 0 =
      (422, ⟨[⟨"Ana", 0⟩], []⟩) :=
  postMessage_rejects_bad_type ⟨[⟨"Ana", 0⟩], []⟩ "Ana" none "Bob" "oi"
    "banana" 0 (by decide) (by decide)
